import Mathlib

/-!
Verification development for the Activity Normalization & Training-Load
Analytics Pipeline (services/preprocess.py, services/pmc_metrics.py,
agents/zone_analysis_agent.py).

Modeling conventions:
* Python floats are modeled as exact rationals (`ℚ`); the two floating-point
  decay constants of the PMC engine are embedded as the exact rational values
  of the IEEE-754 doubles the Python runtime produces.
* Parsed timestamps are modeled as rationals (seconds on a common axis);
  `pandas` time-deltas in seconds are then plain subtraction.
* Python's `round(x, n)` is modeled as rounding `x·10^n` to the nearest
  integer (ties do not occur at any value considered here), and `int(x)` as
  truncation toward zero.
* `None`-able values are `Option`s; functions that return `None, None, None`
  through a caught exception return `Option` values instead.
-/

namespace Aironman

/-- Python `round(x, 2)` on the exact rational value. -/
def round2 (x : ℚ) : ℚ := ((round (x * 100) : ℤ) : ℚ) / 100

/-- Python `round(x, 4)` on the exact rational value. -/
def round4 (x : ℚ) : ℚ := ((round (x * 10000) : ℤ) : ℚ) / 10000

/-- Python `int(x)` on a float: truncation toward zero. -/
def intTrunc (x : ℚ) : ℤ := if 0 ≤ x then ⌊x⌋ else ⌈x⌉

/-- `settings.PAUSE_THRESHOLD` (utils/config.py): 5 seconds. -/
def PAUSE_THRESHOLD : ℚ := 5

/-- One parsed trackpoint row as the TSS / zone computations see it
(services/preprocess.py `parse_tcx_file` output merged with FIT power):
a mandatory timestamp and the optional numeric columns these computations
read.  A column that is absent from a row and a column holding `NaN` are
both modeled as `none`. -/
structure Tp where
  ts : ℚ
  heart_rate : Option ℚ := none
  power : Option ℚ := none
  Power : Option ℚ := none
deriving DecidableEq, Repr

/-- Successive differences against a given previous value. -/
def diffsFrom : ℚ → List ℚ → List ℚ
  | _, [] => []
  | prev, x :: xs => (x - prev) :: diffsFrom x xs

/-- `df["timestamp"].diff().dt.total_seconds().fillna(0)`: the first row's
delta is 0, every later row's delta is the difference to the previous row. -/
def diffs : List ℚ → List ℚ
  | [] => []
  | t :: rest => 0 :: diffsFrom t rest

/-- `time_diffs[time_diffs < PAUSE_THRESHOLD].sum()` (preprocess.py:273):
moving time keeps only deltas strictly below the pause threshold. -/
def movingTime (times : List ℚ) : ℚ :=
  ((diffs times).filter (fun d => d < PAUSE_THRESHOLD)).sum

/-- `df.sort_values("timestamp")`.  The result of every computation below is
invariant under the order of rows with equal timestamps, so a stable sort is
used. -/
def sortByTs (l : List Tp) : List Tp :=
  l.insertionSort (fun a b => a.ts ≤ b.ts)

instance tpTsLeTotal : IsTotal Tp (fun a b => a.ts ≤ b.ts) :=
  ⟨fun a b => le_total a.ts b.ts⟩

instance tpTsLeTrans : IsTrans Tp (fun a b => a.ts ≤ b.ts) :=
  ⟨fun _ _ _ => le_trans⟩

/-- `df.dropna(subset=["power"])` after the `'power' in df.columns` check:
only rows carrying a power value survive. -/
def bikeFiltered (tps : List Tp) : List Tp :=
  tps.filter (fun tp => tp.power.isSome)

/-- The sorted power-bearing rows the bike TSS works on. -/
def bikeSorted (tps : List Tp) : List Tp :=
  sortByTs (bikeFiltered tps)

/-- Moving time of the bike TSS calculation (preprocess.py:272-273),
computed over the power-bearing subsequence only. -/
def bikeMovingTime (tps : List Tp) : ℚ :=
  movingTime ((bikeSorted tps).map (·.ts))

/-- `df["power"].mean()` over the power-bearing rows. -/
def bikeAvgPower (tps : List Tp) : ℚ :=
  (((bikeSorted tps).map (fun tp => tp.power.getD 0)).sum) /
    ((bikeSorted tps).length : ℚ)

/-- `calculate_tss_bike` (preprocess.py:247-281).  Returns
`(round(tss, 2), int(duration_sec), round(duration_hr, 4))`, or `none` when
there is no power column or no row with a power value. -/
def calculate_tss_bike (tps : List Tp) (ftp : ℚ) :
    Option (ℚ × ℤ × ℚ) :=
  if bikeFiltered tps = [] then none
  else
    let moving := bikeMovingTime tps
    let durationHr := moving / 3600
    let IF := bikeAvgPower tps / ftp
    let tss := durationHr * IF ^ 2 * 100
    some (round2 tss, intTrunc moving, round4 durationHr)

/-- The run power column choice (preprocess.py:300):
`'Power' if 'Power' in df.columns else ('power' if 'power' in df.columns
else None)`.  A column exists iff some row carries a value for it. -/
def runPowerCol (tps : List Tp) : Option (Tp → Option ℚ) :=
  if tps.any (fun tp => tp.Power.isSome) then some (fun tp => tp.Power)
  else if tps.any (fun tp => tp.power.isSome) then some (fun tp => tp.power)
  else none

/-- The sorted rows of the chosen run power column. -/
def runSorted (col : Tp → Option ℚ) (tps : List Tp) : List Tp :=
  sortByTs (tps.filter (fun tp => (col tp).isSome))

/-- `calculate_tss_run` (preprocess.py:284-318): identical pipeline to the
bike calculator with the chosen run power column and critical power. -/
def calculate_tss_run (tps : List Tp) (criticalPower : ℚ) :
    Option (ℚ × ℤ × ℚ) :=
  match runPowerCol tps with
  | none => none
  | some col =>
    let rows := runSorted col tps
    if rows = [] then none
    else
      let moving := movingTime (rows.map (·.ts))
      let durationHr := moving / 3600
      let avg := ((rows.map (fun tp => (col tp).getD 0)).sum) /
        ((rows.length : ℚ))
      let IF := avg / criticalPower
      let tss := durationHr * IF ^ 2 * 100
      some (round2 tss, intTrunc moving, round4 durationHr)

/-- The subsequence of trackpoints carrying a value of the run power
column that `calculate_tss_run` selects (empty when neither power column
exists). -/
def runFiltered (tps : List Tp) : List Tp :=
  match runPowerCol tps with
  | none => []
  | some col => tps.filter (fun tp => (col tp).isSome)

/-! ### Character-level string primitives

Lean's positional `String` functions (`toLower`, `trim`, `splitOn`,
`toNat?`) do not reduce inside the kernel, so the handful of string
operations the pipeline performs are defined over the underlying
character lists with the same semantics. -/

/-- `str.lower()`. -/
def lowerChars (l : List Char) : List Char := l.map Char.toLower

/-- `str.strip()`. -/
def trimChars (l : List Char) : List Char :=
  ((l.dropWhile (·.isWhitespace)).reverse.dropWhile (·.isWhitespace)).reverse

/-- `str.split(sep)` for a one-character separator: `""` splits to
`[""]`, and every separator occurrence opens a new (possibly empty)
chunk. -/
def splitChar (sep : Char) : List Char → List (List Char)
  | [] => [[]]
  | c :: rest =>
    let r := splitChar sep rest
    if c = sep then [] :: r
    else
      match r with
      | h :: t => (c :: h) :: t
      | [] => [[c]]

/-- `int(s)` on an unsigned digit string: all characters must be digits
and there must be at least one. -/
def digitsToNat? (l : List Char) : Option ℕ :=
  match l with
  | [] => none
  | _ =>
    if l.all (·.isDigit) then
      some (l.foldl (fun n c => 10 * n + (c.toNat - 48)) 0)
    else none

/-! ### Swim TSS (`calculate_tss_swim`, preprocess.py:322-374) -/

/-- Parse a decimal numeral string the way Python `float` does on inputs of
the shape `[-]digits[.digits]` (the only shape the swim CSV carries);
any other input is a parse failure. -/
def parseDecimal? (s : String) : Option ℚ :=
  let core (t : List Char) (sign : ℚ) : Option ℚ :=
    match splitChar '.' t with
    | [a] => (digitsToNat? a).map (fun n => sign * (n : ℚ))
    | [a, b] =>
      match digitsToNat? a, digitsToNat? b with
      | some n, some f =>
        some (sign * ((n : ℚ) + (f : ℚ) / 10 ^ b.length))
      | _, _ => none
    | _ => none
  if s.data.take 1 = ['-'] then core (s.data.drop 1) (-1)
  else core s.data 1

/-- `parse_time_to_seconds` (preprocess.py:227-244): `hh:mm:ss(.sss)` or
`mm:ss(.sss)` or a bare number to seconds; empty, `"0"`, or unparsable
input gives `0.0`. -/
def parse_time_to_seconds (timeStr : String) : ℚ :=
  if timeStr = "" ∨ timeStr = "0" then 0
  else
    match (splitChar ':' timeStr.data).map String.mk with
    | [h, m, s] =>
      match digitsToNat? h.data, digitsToNat? m.data, parseDecimal? s with
      | some hv, some mv, some sv => hv * 3600 + mv * 60 + sv
      | _, _, _ => 0
    | [m, s] =>
      match digitsToNat? m.data, parseDecimal? s with
      | some mv, some sv => mv * 60 + sv
      | _, _ => 0
    | _ => (parseDecimal? timeStr).getD 0

/-- One row of the swim lap/split CSV as `csv.DictReader` yields it:
the `Split`, `Distance` and `Time` cells (a missing cell is `none`). -/
structure SwimRow where
  split : Option String := none
  distance : Option String := none
  time : Option String := none
deriving DecidableEq, Repr

/-- CSS string `"m:ss"` to seconds per 100 m:
`m, s = map(int, css.split(":")); css_seconds = m * 60 + s`.
Any other shape raises, which the caller turns into `none`. -/
def cssSeconds? (css : String) : Option ℚ :=
  match splitChar ':' css.data with
  | [m, s] =>
    match digitsToNat? m, digitsToNat? s with
    | some mv, some sv => some ((mv : ℚ) * 60 + sv)
    | _, _ => none
  | _ => none

/-- `css_speed = 100 / (css_seconds / 60)` in m/min; `css_seconds = 0`
raises `ZeroDivisionError`, caught into the not-computable outcome. -/
def cssSpeed? (css : String) : Option ℚ :=
  match cssSeconds? css with
  | none => none
  | some cs => if cs = 0 then none else some (100 / (cs / 60))

/-- `calculate_tss_swim` (preprocess.py:322-374) over the parsed CSV rows
and the profile's `css_pace_per_100m` entry.  Returns
`(round(sTSS, 2), duration_sec, round(duration_hr, 4))`,
`none` on every caught-exception / not-computable path. -/
def calculate_tss_swim (rows : List SwimRow) (css : Option String) :
    Option (ℚ × ℤ × ℚ) :=
  match css with
  | none => none          -- `if not css` (missing)
  | some c =>
    if c = "" then none   -- `if not css` (empty string is falsy)
    else
      match cssSpeed? c with
      | none => none      -- int() / ZeroDivisionError, caught
      | some cssSpeed =>
        -- last row whose stripped, lowered `Split` cell is "summary"
        match rows.reverse.find?
            (fun r =>
              lowerChars (trimChars (r.split.getD "").data) =
                "summary".data) with
        | none => none
        | some row =>
          -- `float(summary_row.get("Distance", 0))`
          match (match row.distance with
                 | none => some (0 : ℚ)
                 | some d => parseDecimal? d) with
          | none => none  -- float() raised, caught
          | some totalDistance =>
            let totalTimeMin := parse_time_to_seconds (row.time.getD "0") / 60
            if totalTimeMin = 0 ∨ cssSpeed = 0 then none
            else
              let nss := totalDistance / totalTimeMin
              let IF := nss / cssSpeed
              let durationHr := totalTimeMin / 60
              let sTSS := IF ^ 3 * durationHr * 100
              some (round2 sTSS, intTrunc (totalTimeMin * 60),
                round4 durationHr)

/-! ### Sport classifier (`get_tcx_sport` preprocess.py:147-176,
`get_gpx_type` preprocess.py:179-200, wiring in `process_activity_files`
preprocess.py:670-677) -/

/-- The fixed lookup table of `get_tcx_sport`. -/
def sport_mapping : List (String × String) :=
  [("running", "run"), ("biking", "bike"), ("cycling", "bike"),
   ("swimming", "swim"), ("strength", "strength")]

/-- `get_tcx_sport` on the `Sport` attribute of the TCX `Activity` element
(`none` models a missing attribute, defaulted to `"Other"`; a missing
`Activity` element or a parse error yields `"other"` upstream of this
mapping and is covered by the `none`-attribute case composed with the
default). -/
def get_tcx_sport (sportAttr : Option String) : String :=
  let sport := String.mk (lowerChars (sportAttr.getD "Other").data)
  ((sport_mapping.lookup sport).getD "other")

/-- `get_gpx_type` on the text of the GPX `type` element: `some "swim"`
iff the lowered text contains the substring `"swim"`. -/
def get_gpx_type (typeText : Option String) : Option String :=
  match typeText with
  | none => none
  | some t =>
    if "swim".data <:+: lowerChars t.data then some "swim" else none

/-- The classifier wiring of `process_activity_files`: if the TCX sport is
`"other"` and a GPX route file is present, its `type` text may reclassify
the workout. -/
def classify_sport (sportAttr : Option String)
    (gpxTypeText : Option (Option String)) : String :=
  let workoutType := get_tcx_sport sportAttr
  if workoutType = "other" then
    match gpxTypeText with
    | none => workoutType                  -- no GPX file on disk
    | some txt => (get_gpx_type txt).getD workoutType
  else workoutType

/-! ### Zone binning (`get_fallback_zone_analysis`,
`get_hr_zone`, `get_power_zone`; agents/zone_analysis_agent.py:211-320) -/

/-- One zone table: ordered `(name, (lower, upper))` entries, as the
profile's `zones` dict iterates. -/
abbrev ZoneDef := List (String × ℚ × ℚ)

/-- `get_hr_zone` / `get_power_zone`: the first zone whose inclusive
`[lower, upper]` range contains the value. -/
def get_hr_zone (v : ℚ) (zonesDef : ZoneDef) : Option String :=
  (zonesDef.find? (fun z => z.2.1 ≤ v ∧ v ≤ z.2.2)).map (·.1)

/-- `get_power_zone` (zone_analysis_agent.py:313-318): same first-match
rule as `get_hr_zone`. -/
def get_power_zone (v : ℚ) (zonesDef : ZoneDef) : Option String :=
  (zonesDef.find? (fun z => z.2.1 ≤ v ∧ v ≤ z.2.2)).map (·.1)

/-- The seven named zones (`all_zones` in the source). -/
def all_zones : List String := ["z1", "z2", "zx", "z3", "zy", "z4", "z5"]

/-- The initial zone-minute accumulator: every `"<zone>_minutes"` key at 0. -/
def initZones : List (String × ℚ) :=
  all_zones.map (fun z => (z ++ "_minutes", (0 : ℚ)))

/-- `zone_dict[f"{zone}_minutes"] += v` for a key that is present
(the source raises `KeyError` on a zone name outside the initialized
seven; profiles are assumed to use the seven names, per the spec's
zone-table invariant). -/
def bumpZone (l : List (String × ℚ)) (k : String) (v : ℚ) :
    List (String × ℚ) :=
  l.map (fun kv => if kv.1 = k then (kv.1, kv.2 + v) else kv)

/-- Result record of the fallback zone analysis. -/
structure ZoneAnalysis where
  heart_rate_zones : List (String × ℚ)
  power_zones : List (String × ℚ)
  total_duration_minutes : ℚ
  hr_available : Bool
  power_available : Bool
deriving Repr

/-- The per-row accumulation loop of `get_fallback_zone_analysis`:
each row credits its zone with `time_diff_seconds / 60`. -/
def zoneLoop (rows : List (Tp × ℚ)) (hrAvail : Bool)
    (hrDef : ZoneDef) (powerAvail : Bool) (powerDef : Option ZoneDef)
    (powerCol : Tp → Option ℚ) :
    List (String × ℚ) × List (String × ℚ) :=
  rows.foldl
    (fun acc row =>
      let timeMin := row.2 / 60
      let acc1 :=
        match hrAvail, row.1.heart_rate with
        | true, some hr =>
          match get_hr_zone hr hrDef with
          | some z => (bumpZone acc.1 (z ++ "_minutes") timeMin, acc.2)
          | none => acc
        | _, _ => acc
      match powerAvail && !(powerDef.getD []).isEmpty, powerCol row.1 with
      | true, some p =>
        match get_power_zone p (powerDef.getD []) with
        | some z => (acc1.1, bumpZone acc1.2 (z ++ "_minutes") timeMin)
        | none => acc1
      | _, _ => acc1)
    (initZones, initZones)

/-- `get_fallback_zone_analysis` (zone_analysis_agent.py:211-304).
`hrDef` is `profile['zones']['heart_rate']['zones']`; `powerDef` is the
bike/run power table (`none` for other workout types, mirroring
`power_zones_def = None`). -/
def get_fallback_zone_analysis (tps : List Tp) (hrDef : ZoneDef)
    (powerDef : Option ZoneDef) : ZoneAnalysis :=
  match tps with
  | [] =>
    { heart_rate_zones := initZones, power_zones := initZones,
      total_duration_minutes := 0,
      hr_available := false, power_available := false }
  | _ :: _ =>
    let sorted := sortByTs tps
    let ds := diffs (sorted.map (·.ts))
    let hrAvail := tps.any (fun tp => tp.heart_rate.isSome)
    -- `power_col = 'power' if 'power' in df.columns else 'Power'`
    let powerCol : Tp → Option ℚ :=
      if tps.any (fun tp => tp.power.isSome) then (fun tp => tp.power)
      else (fun tp => tp.Power)
    let powerAvail := powerDef.isSome &&
      (tps.any (fun tp => (powerCol tp).isSome))
    let z := zoneLoop (sorted.zip ds) hrAvail hrDef powerAvail powerDef
      powerCol
    { heart_rate_zones := z.1.map (fun kv => (kv.1, round2 kv.2)),
      power_zones := z.2.map (fun kv => (kv.1, round2 kv.2)),
      total_duration_minutes := round2 (ds.sum / 60),
      hr_available := hrAvail, power_available := powerAvail }

/-! ### Workout-target mapper (`map_targets_to_timestamps`,
preprocess.py:493-607) -/

/-- A FIT field value that may be a string or an integer (the
`target_type` / `duration_type` comparisons in the source test both). -/
inductive TVal where
  | str (s : String)
  | num (n : ℤ)
deriving DecidableEq, Repr

/-- One `workout_step` record as extracted by
`extract_workout_targets_from_fit` (the `message_index` key feeds a lookup
the mapper builds but never reads, and is omitted). -/
structure WStep where
  wkt_step_name : Option String := none
  duration_type : Option String := none
  duration_value : Option ℚ := none
  target_type : Option TVal := none
  target_value : Option ℚ := none
  custom_target_value_low : Option ℚ := none
  custom_target_value_high : Option ℚ := none
  intensity : Option String := none
deriving DecidableEq, Repr

/-- A trackpoint as the mapper sees it: the parse result of its timestamp
(`none` = `dtparser.parse` raises, leaving the trackpoint untouched) and
the annotation fields the mapper may add. -/
structure ATp where
  ts : Option ℚ
  target_power_low : Option ℚ := none
  target_power_high : Option ℚ := none
  target_power_type : Option TVal := none
  target_power_zone : Option ℚ := none
  target_pace_low : Option ℚ := none
  target_pace_high : Option ℚ := none
  target_speed_low : Option ℚ := none
  target_speed_high : Option ℚ := none
  target_speed_type : Option TVal := none
  workout_step_index : Option ℕ := none
  workout_step_name : Option String := none
  workout_intensity : Option String := none
deriving DecidableEq, Repr

/-- The step-search loop (preprocess.py:536-556): walk the step list
accumulating `cumulative_time` (seconds), which advances only for steps
with a `duration_value` and `duration_type == "time"`; such a step claims
`cumulative_time <= elapsed < cumulative_time + duration_value/1000`;
an `"open"`-type step claims every `elapsed >= cumulative_time`. -/
def findStepGo (elapsed : ℚ) (i : ℕ) (cum : ℚ) :
    List WStep → Option ℕ
  | [] => none
  | s :: rest =>
    match s.duration_value with
    | some dv =>
      if s.duration_type = some "time" then
        let dur := dv / 1000
        if cum ≤ elapsed ∧ elapsed < cum + dur then some i
        else findStepGo elapsed (i + 1) (cum + dur) rest
      else if s.duration_type = some "open" then
        if cum ≤ elapsed then some i
        else findStepGo elapsed (i + 1) cum rest
      else findStepGo elapsed (i + 1) cum rest
    | none =>
      if s.duration_type = some "open" then
        if cum ≤ elapsed then some i
        else findStepGo elapsed (i + 1) cum rest
      else findStepGo elapsed (i + 1) cum rest

/-- Entry point of the step-search loop: walk from index 0 with zero
cumulative time. -/
def findStep (steps : List WStep) (elapsed : ℚ) : Option ℕ :=
  findStepGo elapsed 0 0 steps

/-- The per-trackpoint annotation block (preprocess.py:558-597). -/
def annotateTp (tp : ATp) (step : WStep) (stepIdx : ℕ)
    (workoutType : String) : ATp :=
  let tp1 :=
    if workoutType = "bike" then
      if step.target_type = some (.str "power_3s") ∨
          step.target_type = some (.num 0) then
        { tp with
          target_power_low := step.custom_target_value_low,
          target_power_high := step.custom_target_value_high,
          target_power_type := step.target_type }
      else if step.target_type = some (.num 4) then
        { tp with
          target_power_zone := step.target_value,
          target_power_type := some (.str "zone") }
      else tp
    else if workoutType = "run" then
      if step.target_type = some (.str "speed") ∨
          step.target_type = some (.num 0) then
        let speedLow := step.custom_target_value_low
        let speedHigh := step.custom_target_value_high
        let tpA :=
          match speedLow with
          | some sl =>
            { tp with target_pace_high :=
                if 0 < sl / 1000 then some (1000 / (sl / 1000)) else none }
          | none => tp
        let tpB :=
          match speedHigh with
          | some sh =>
            { tpA with target_pace_low :=
                if 0 < sh / 1000 then some (1000 / (sh / 1000)) else none }
          | none => tpA
        { tpB with
          target_speed_low := speedLow,
          target_speed_high := speedHigh,
          target_speed_type := step.target_type }
      else tp
    else tp
  { tp1 with
    workout_step_index := some stepIdx,
    workout_step_name := step.wkt_step_name,
    workout_intensity := step.intensity }

/-- `map_targets_to_timestamps` (preprocess.py:493-607): annotate each
trackpoint with the owning step's targets; elapsed time is measured from
the first trackpoint's timestamp. -/
def map_targets_to_timestamps (tps : List ATp) (steps : List WStep)
    (workoutType : String) : List ATp :=
  if steps = [] then tps
  else
    match tps with
    | [] => []
    | tp0 :: _ =>
      match tp0.ts with
      | none => tps     -- workout start unparsable: skip target mapping
      | some t0 =>
        tps.map (fun tp =>
          match tp.ts with
          | none => tp  -- per-trackpoint exception: keep original
          | some t =>
            match findStep steps (t - t0) with
            | none => tp
            | some i => annotateTp tp (steps.getD i {}) i workoutType)

/-! ### Trackpoint merge (`merge_power_into_tcx`, preprocess.py:113-144)

A Python dict is modeled extensionally as a function from keys to optional
values: `dict.update` and dict equality (`==`) are insensitive to
insertion order, which is the only dict structure the merge observes. -/

/-- A dict value: the TCX/FIT dicts hold numbers and strings. -/
inductive PVal where
  | num (q : ℚ)
  | str (s : String)

/-- A trackpoint dict together with the parse key
`dtparser.parse(tp["timestamp"]).replace(microsecond=0, tzinfo=None)`
(whole seconds, timezone stripped), `none` when parsing raises.  The
`"timestamp"` entry itself lives in `fields` and is never overwritten by
the merge, so the key is stable across merges. -/
structure MergeTp where
  ts : Option ℤ
  fields : String → Option PVal

/-- A power-series entry (timestamp parse key plus its dict). -/
structure PSample where
  ts : Option ℤ
  fields : String → Option PVal

/-- `power_lookup`: keyed by truncated timestamp, later entries overwrite
earlier ones; each value is the entry's dict without its `"timestamp"`
key. -/
def powerLookup (ps : List PSample) : ℤ → Option (String → Option PVal) :=
  ps.foldl
    (fun acc e =>
      match e.ts with
      | none => acc   -- `except Exception: continue`
      | some t => fun t' =>
        if t' = t then
          some (fun k => if k = "timestamp" then none else e.fields k)
        else acc t')
    (fun _ => none)

/-- `merge_power_into_tcx` (preprocess.py:113-144). -/
def merge_power_into_tcx (tps : List MergeTp) (ps : List PSample) :
    List MergeTp :=
  let lookup := powerLookup ps
  tps.map (fun tp =>
    match tp.ts with
    | none => tp      -- `except Exception: merged.append(tp)`
    | some t =>
      match lookup t with
      | none => tp    -- no match: `dict(tp)` equals `tp`
      | some s =>
        { tp with fields := fun k =>
            match s k with
            | some v => some v
            | none => tp.fields k })

/-! ### PMC engine (`PMCMetrics`, services/pmc_metrics.py) -/

/-- `math.exp(-1/42)` as the exact rational value of the IEEE-754 double
the Python runtime computes (`PMCMetrics.calculate_decay_factor(42)`). -/
def ctlDecay : ℚ := 8795275048289765 / 9007199254740992

/-- `math.exp(-1/7)` as the exact rational value of the IEEE-754 double
the Python runtime computes (`PMCMetrics.calculate_decay_factor(7)`). -/
def atlDecay : ℚ := 976017746572659 / 1125899906842624

/-- One workout row of the PMC input: its date (day number on the proleptic
day axis, so date subtraction yields `.days`) and its non-null TSS. -/
structure PWorkout where
  date : ℤ
  tss : ℚ
deriving DecidableEq, Repr

/-- `PMCMetrics.calculate_ctl` (pmc_metrics.py:36-69): weighted average of
TSS over day offsets `0 ≤ d ≤ 42` with weight `decay^d`; `0.0` when no
workout contributes. -/
def calculate_ctl (workouts : List PWorkout) (targetDate : ℤ) : ℚ :=
  if workouts = [] then 0
  else
    let r := workouts.foldl
      (fun (acc : ℚ × ℚ) w =>
        let daysDiff := targetDate - w.date
        if 0 ≤ daysDiff ∧ daysDiff ≤ 42 then
          (acc.1 + w.tss * ctlDecay ^ daysDiff.toNat,
           acc.2 + ctlDecay ^ daysDiff.toNat)
        else acc)
      (0, 0)
    if 0 < r.2 then r.1 / r.2 else 0

/-- `PMCMetrics.calculate_atl` (pmc_metrics.py:71-104): same with the
7-day decay and `0 ≤ d ≤ 7`. -/
def calculate_atl (workouts : List PWorkout) (targetDate : ℤ) : ℚ :=
  if workouts = [] then 0
  else
    let r := workouts.foldl
      (fun (acc : ℚ × ℚ) w =>
        let daysDiff := targetDate - w.date
        if 0 ≤ daysDiff ∧ daysDiff ≤ 7 then
          (acc.1 + w.tss * atlDecay ^ daysDiff.toNat,
           acc.2 + atlDecay ^ daysDiff.toNat)
        else acc)
      (0, 0)
    if 0 < r.2 then r.1 / r.2 else 0

/-- `PMCMetrics.calculate_tsb` (pmc_metrics.py:105-120): `ctl - atl`. -/
def calculate_tsb (ctl atl : ℚ) : ℚ := ctl - atl

/-- `PMCMetrics.calculate_daily_metrics` (pmc_metrics.py:167-191) on the
workout rows its database query returns (all workouts with non-null TSS
dated within `[target - 42, target]`): the reported
`(ctl, atl, tsb)`, each rounded to 2 decimals; `tsb` is rounded **after**
the subtraction of the unrounded values. -/
def calculate_daily_metrics (workouts : List PWorkout) (targetDate : ℤ) :
    ℚ × ℚ × ℚ :=
  let ctl := calculate_ctl workouts targetDate
  let atl := calculate_atl workouts targetDate
  (round2 ctl, round2 atl, round2 (calculate_tsb ctl atl))

/-! ### TSS dispatch (`calculate_workout_metrics`, preprocess.py:750-784) -/

/-- The baseline entries of the active athlete profile that
`calculate_workout_metrics` reads (`.get(...)` returns `None` when the
entry is absent). -/
structure ProfileZones where
  ftp : Option ℚ := none
  critical_power : Option ℚ := none
  css_pace_per_100m : Option String := none

/-- `calculate_workout_metrics` (preprocess.py:750-784): the TSS triple of
the processed workout.  `tss` starts as `None`; a sport-specific
calculator only runs when its baseline is truthy (`if ftp:` /
`if critical_power:` — `None` and `0` are falsy) and, for swim, when the
CSV file exists (`csvRows = none` models a missing file). -/
def calculate_workout_metrics (workoutType : String) (tps : List Tp)
    (csvRows : Option (List SwimRow)) (profile : ProfileZones) :
    Option (ℚ × ℤ × ℚ) :=
  if workoutType = "bike" then
    match profile.ftp with
    | none => none
    | some ftp => if ftp = 0 then none else calculate_tss_bike tps ftp
  else if workoutType = "run" then
    match profile.critical_power with
    | none => none
    | some cp => if cp = 0 then none else calculate_tss_run tps cp
  else if workoutType = "swim" then
    match csvRows with
    | none => none
    | some rows => calculate_tss_swim rows profile.css_pace_per_100m
  else none

/-! ### Concrete input families used by witnesses -/

/-- `n` trackpoints starting at time `a`, spaced `c` seconds apart, each
carrying a constant 250 W power sample. -/
def tpAP : ℕ → ℚ → ℚ → List Tp
  | 0, _, _ => []
  | n + 1, a, c => { ts := a, power := some 250 } :: tpAP n (a + c) c

/-! ## Theorems -/

theorem MergeTp.ext' {a b : MergeTp} (h1 : a.ts = b.ts)
    (h2 : a.fields = b.fields) : a = b := by
  cases a; cases b; cases h1; cases h2; rfl

/-- C6: the trackpoint merge is idempotent: merging an empty power-sample
list returns the trackpoint list unchanged, and merging the same sample
list twice yields the same result as merging it once. -/
theorem merge_power_into_tcx_idempotent :
    (∀ tps : List MergeTp, merge_power_into_tcx tps [] = tps) ∧
    (∀ (tps : List MergeTp) (ps : List PSample),
      merge_power_into_tcx (merge_power_into_tcx tps ps) ps =
        merge_power_into_tcx tps ps) := by
  constructor
  · intro tps
    unfold merge_power_into_tcx powerLookup
    simp only [List.foldl_nil]
    have h : ∀ tp : MergeTp,
        (match tp.ts with
         | none => tp
         | some t =>
           match (fun _ : ℤ => (none : Option (String → Option PVal))) t with
           | none => tp
           | some s =>
             { tp with fields := fun k =>
                 match s k with
                 | some v => some v
                 | none => tp.fields k }) = tp := by
      intro tp
      cases tp.ts <;> rfl
    simp only [h, List.map_id']
  · intro tps ps
    unfold merge_power_into_tcx
    rw [List.map_map, List.map_eq_map_iff]
    intro tp _
    rcases hts : tp.ts with _ | t
    · simp [Function.comp, hts]
    · rcases hl : powerLookup ps t with _ | s
      · simp [Function.comp, hts, hl]
      · simp only [Function.comp, hts, hl]
        refine MergeTp.ext' rfl ?_
        funext k
        rcases hk : s k with _ | v <;> simp [hk]

/-- The TCX sport mapping only produces the five strings
`run`, `bike`, `swim`, `strength`, `other`. -/
theorem get_tcx_sport_mem (attr : Option String) :
    get_tcx_sport attr ∈ ["run", "bike", "swim", "strength", "other"] := by
  unfold get_tcx_sport sport_mapping
  simp only [List.lookup]
  split
  · simp_all
  · split
    · simp_all
    · split
      · simp_all
      · split
        · simp_all
        · split <;> simp_all

/-- C9 counterexample: a TCX whose `Sport` attribute is `"Strength"` is
classified as `"strength"`, a fifth value outside the claimed four-value
set `{bike, run, swim, other}`. -/
theorem sport_classifier_counterexample :
    classify_sport (some "Strength") none = "strength" ∧
    ("strength" : String) ∉ ["bike", "run", "swim", "other"] := by
  constructor
  · decide
  · decide

/-- C9 (amended): the classifier's result is one of the five values of the
lookup table's range `{run, bike, swim, strength, other}`; and whenever the
primary file maps to `"other"` and the GPX route file's free-text type
contains `"swim"` case-insensitively, the result is `"swim"`. -/
theorem sport_classifier_range_and_swim_reclass (attr : Option String)
    (gpx : Option (Option String)) :
    classify_sport attr gpx ∈ ["run", "bike", "swim", "strength", "other"] ∧
    (get_tcx_sport attr = "other" →
      ∀ txt : String, gpx = some (some txt) →
        "swim".data <:+: lowerChars txt.data →
        classify_sport attr gpx = "swim") := by
  constructor
  · rcases gpx with _ | txt
    · simp only [classify_sport]
      split <;> exact get_tcx_sport_mem attr
    · rcases txt with _ | t
      · simp only [classify_sport]
        split <;> exact get_tcx_sport_mem attr
      · simp only [classify_sport, get_gpx_type]
        split
        · split
          · simp
          · exact get_tcx_sport_mem attr
        · exact get_tcx_sport_mem attr
  · intro hother txt hgpx hswim
    subst hgpx
    simp only [classify_sport, get_gpx_type]
    rw [if_pos hother, if_pos hswim]
    rfl

/-- Witness for the hypotheses of
`sport_classifier_range_and_swim_reclass`: the `"Other"`-sport,
swim-typed-GPX instance. -/
theorem sport_classifier_range_and_swim_reclass_witness :
    classify_sport (some "Other") (some (some "Open Water Swimming")) ∈
      ["run", "bike", "swim", "strength", "other"] ∧
    classify_sport (some "Other") (some (some "Open Water Swimming")) =
      "swim" :=
  ⟨(sport_classifier_range_and_swim_reclass (some "Other")
      (some (some "Open Water Swimming"))).1,
   (sport_classifier_range_and_swim_reclass (some "Other")
      (some (some "Open Water Swimming"))).2 (by decide)
      "Open Water Swimming" rfl (by decide)⟩

theorem round2_zero : round2 0 = 0 := by
  norm_num [round2, round_eq]

/-- `calculate_ctl` is 0 when no workout falls in the 42-day window. -/
theorem calculate_ctl_eq_zero (workouts : List PWorkout) (targetDate : ℤ)
    (h : ∀ w ∈ workouts,
      ¬(0 ≤ targetDate - w.date ∧ targetDate - w.date ≤ 42)) :
    calculate_ctl workouts targetDate = 0 := by
  unfold calculate_ctl
  split
  · rfl
  · have hfold : ∀ (l : List PWorkout) (acc : ℚ × ℚ),
        (∀ w ∈ l, ¬(0 ≤ targetDate - w.date ∧ targetDate - w.date ≤ 42)) →
        l.foldl
          (fun (acc : ℚ × ℚ) w =>
            let daysDiff := targetDate - w.date
            if 0 ≤ daysDiff ∧ daysDiff ≤ 42 then
              (acc.1 + w.tss * ctlDecay ^ daysDiff.toNat,
               acc.2 + ctlDecay ^ daysDiff.toNat)
            else acc)
          acc = acc := by
      intro l
      induction l with
      | nil => intro acc _; rfl
      | cons w ws ih =>
        intro acc hl
        simp only [List.foldl_cons]
        rw [if_neg (hl w (List.mem_cons_self w ws))]
        exact ih acc (fun w' hw' => hl w' (List.mem_cons_of_mem w hw'))
    rw [hfold workouts (0, 0) h]
    norm_num

/-- `calculate_atl` is 0 when no workout falls in the 7-day window. -/
theorem calculate_atl_eq_zero (workouts : List PWorkout) (targetDate : ℤ)
    (h : ∀ w ∈ workouts,
      ¬(0 ≤ targetDate - w.date ∧ targetDate - w.date ≤ 7)) :
    calculate_atl workouts targetDate = 0 := by
  unfold calculate_atl
  split
  · rfl
  · have hfold : ∀ (l : List PWorkout) (acc : ℚ × ℚ),
        (∀ w ∈ l, ¬(0 ≤ targetDate - w.date ∧ targetDate - w.date ≤ 7)) →
        l.foldl
          (fun (acc : ℚ × ℚ) w =>
            let daysDiff := targetDate - w.date
            if 0 ≤ daysDiff ∧ daysDiff ≤ 7 then
              (acc.1 + w.tss * atlDecay ^ daysDiff.toNat,
               acc.2 + atlDecay ^ daysDiff.toNat)
            else acc)
          acc = acc := by
      intro l
      induction l with
      | nil => intro acc _; rfl
      | cons w ws ih =>
        intro acc hl
        simp only [List.foldl_cons]
        rw [if_neg (hl w (List.mem_cons_self w ws))]
        exact ih acc (fun w' hw' => hl w' (List.mem_cons_of_mem w hw'))
    rw [hfold workouts (0, 0) h]
    norm_num

/-- C2 (amended): the reported CTL is 0 when no workout falls in the
42-day window and the reported ATL is 0 when no workout falls in the
7-day window; the unrounded TSB is exactly CTL − ATL, and the reported
TSB is that difference rounded to 2 decimals (rather than the difference
of the two independently rounded values). -/
theorem pmc_windows_and_tsb (workouts : List PWorkout) (targetDate : ℤ) :
    ((∀ w ∈ workouts,
        ¬(0 ≤ targetDate - w.date ∧ targetDate - w.date ≤ 42)) →
      (calculate_daily_metrics workouts targetDate).1 = 0) ∧
    ((∀ w ∈ workouts,
        ¬(0 ≤ targetDate - w.date ∧ targetDate - w.date ≤ 7)) →
      (calculate_daily_metrics workouts targetDate).2.1 = 0) ∧
    calculate_tsb (calculate_ctl workouts targetDate)
        (calculate_atl workouts targetDate) =
      calculate_ctl workouts targetDate -
        calculate_atl workouts targetDate ∧
    (calculate_daily_metrics workouts targetDate).2.2 =
      round2 (calculate_ctl workouts targetDate -
        calculate_atl workouts targetDate) := by
  refine ⟨fun h => ?_, fun h => ?_, rfl, rfl⟩
  · show round2 (calculate_ctl workouts targetDate) = 0
    rw [calculate_ctl_eq_zero workouts targetDate h, round2_zero]
  · show round2 (calculate_atl workouts targetDate) = 0
    rw [calculate_atl_eq_zero workouts targetDate h, round2_zero]

/-- Witness for the hypotheses of `pmc_windows_and_tsb`: with no workouts
at all, the reported CTL and ATL are 0 and the reported TSB is the rounded
difference. -/
theorem pmc_windows_and_tsb_witness :
    (calculate_daily_metrics [] 0).1 = 0 ∧
    (calculate_daily_metrics [] 0).2.1 = 0 ∧
    (calculate_daily_metrics [] 0).2.2 =
      round2 (calculate_ctl [] 0 - calculate_atl [] 0) :=
  ⟨(pmc_windows_and_tsb [] 0).1 (by simp),
   (pmc_windows_and_tsb [] 0).2.1 (by simp),
   (pmc_windows_and_tsb [] 0).2.2.2⟩

/-- C2 counterexample: for the two workouts (TSS 9.46 on the target day,
TSS 10.91 one day earlier) the reported metrics are
CTL = 10.18, ATL = 10.13, TSB = 0.04, and 10.18 − 10.13 = 0.05 ≠ 0.04:
the reported TSB is not the reported CTL minus the reported ATL. -/
theorem pmc_reported_tsb_counterexample :
    calculate_daily_metrics
        [{ date := 1, tss := 946/100 }, { date := 0, tss := 1091/100 }] 1 =
      (1018/100, 1013/100, 4/100) ∧
    (1018/100 : ℚ) - 1013/100 ≠ 4/100 := by
  constructor
  · have hne : ([{ date := 1, tss := 946/100 },
        { date := 0, tss := 1091/100 }] : List PWorkout) ≠ [] := by
      simp
    unfold calculate_daily_metrics calculate_ctl calculate_atl
      calculate_tsb
    simp only [List.foldl_cons, List.foldl_nil, if_neg hne]
    norm_num [round2, round_eq, ctlDecay, atlDecay]
  · norm_num

/-- C3 counterexample: for the Summary row `Distance=1000`,
`Time="16:40"` and CSS `"1:40"`, the swim TSS is 27.78
(`IF³ · duration_hr · 100 = 1 · (1000/3600) · 100`), not the claimed
100.00. -/
theorem swim_tss_counterexample :
    calculate_tss_swim
        [{ split := some "Summary", distance := some "1000",
           time := some "16:40" }] (some "1:40") =
      some (2778/100, 1000, 2778/10000) ∧
    (2778/100 : ℚ) ≠ 100 := by
  constructor
  · have hcss : cssSpeed? "1:40" = some 60 := by
      have hsp : splitChar ':' "1:40".data = [['1'], ['4', '0']] := by
        decide
      have h1 : digitsToNat? ['1'] = some 1 := by decide
      have h40 : digitsToNat? ['4', '0'] = some 40 := by decide
      simp only [cssSpeed?, cssSeconds?, hsp, h1, h40]
      norm_num
    have hfind : List.find?
        (fun r => decide (lowerChars (trimChars (r.split.getD "").data) =
          "summary".data))
        (List.reverse
          [({ split := some "Summary", distance := some "1000",
              time := some "16:40" } : SwimRow)]) =
        some { split := some "Summary", distance := some "1000",
               time := some "16:40" } := by decide
    have hdist : parseDecimal? "1000" = some 1000 := by
      have hsp : splitChar '.' "1000".data = [['1', '0', '0', '0']] := by
        decide
      have hd : digitsToNat? ['1', '0', '0', '0'] = some 1000 := by decide
      simp +decide only [parseDecimal?, hsp, hd, List.take, List.drop]
      norm_num
    have htime : parse_time_to_seconds "16:40" = 1000 := by
      have hsp : splitChar ':' "16:40".data = [['1', '6'], ['4', '0']] := by
        decide
      have h16 : digitsToNat? ['1', '6'] = some 16 := by decide
      have h40 : digitsToNat? ['4', '0'] = some 40 := by decide
      have hsec : parseDecimal? (String.mk ['4', '0']) = some 40 := by
        have hsp2 : splitChar '.' (String.mk ['4', '0']).data =
            [['4', '0']] := by decide
        simp +decide only [parseDecimal?, hsp2, h40, List.take, List.drop]
        norm_num
      simp +decide only [parse_time_to_seconds, hsp, List.map]
      rw [h16, hsec]
      norm_num
    simp only [calculate_tss_swim, hcss, hfind, hdist, Option.getD, htime]
    norm_num +decide [htime, hdist, intTrunc, round2, round4, round_eq]
  · norm_num

/-- C3 (amended): for the Summary row `Distance=1000`, `Time="16:40"` and
CSS `"1:40"` per 100 m, the CSS speed is 60 m/min, the total time is
1000 s so the normalized swim speed is `1000 / (1000/60) = 60` m/min and
`IF = 60/60 = 1`, and the swim TSS output is
`sTSS = IF³ · duration_hr · 100 = 27.78` with `duration_sec = 1000` and
`duration_hr = 0.2778`. -/
theorem swim_tss_summary_scenario :
    cssSpeed? "1:40" = some 60 ∧
    parse_time_to_seconds "16:40" = 1000 ∧
    (1000 : ℚ) / (parse_time_to_seconds "16:40" / 60) = 60 ∧
    calculate_tss_swim
        [{ split := some "Summary", distance := some "1000",
           time := some "16:40" }] (some "1:40") =
      some (2778/100, 1000, 2778/10000) := by
  have hcss : cssSpeed? "1:40" = some 60 := by
    have hsp : splitChar ':' "1:40".data = [['1'], ['4', '0']] := by
      decide
    have h1 : digitsToNat? ['1'] = some 1 := by decide
    have h40 : digitsToNat? ['4', '0'] = some 40 := by decide
    simp only [cssSpeed?, cssSeconds?, hsp, h1, h40]
    norm_num
  have hfind : List.find?
      (fun r => decide (lowerChars (trimChars (r.split.getD "").data) =
        "summary".data))
      (List.reverse
        [({ split := some "Summary", distance := some "1000",
            time := some "16:40" } : SwimRow)]) =
      some { split := some "Summary", distance := some "1000",
             time := some "16:40" } := by decide
  have hdist : parseDecimal? "1000" = some 1000 := by
    have hsp : splitChar '.' "1000".data = [['1', '0', '0', '0']] := by
      decide
    have hd : digitsToNat? ['1', '0', '0', '0'] = some 1000 := by decide
    simp +decide only [parseDecimal?, hsp, hd, List.take, List.drop]
    norm_num
  have htime : parse_time_to_seconds "16:40" = 1000 := by
    have hsp : splitChar ':' "16:40".data = [['1', '6'], ['4', '0']] := by
      decide
    have h16 : digitsToNat? ['1', '6'] = some 16 := by decide
    have h40 : digitsToNat? ['4', '0'] = some 40 := by decide
    have hsec : parseDecimal? (String.mk ['4', '0']) = some 40 := by
      have hsp2 : splitChar '.' (String.mk ['4', '0']).data =
          [['4', '0']] := by decide
      simp +decide only [parseDecimal?, hsp2, h40, List.take, List.drop]
      norm_num
    simp +decide only [parse_time_to_seconds, hsp, List.map]
    rw [h16, hsec]
    norm_num
  refine ⟨hcss, htime, by rw [htime]; norm_num, ?_⟩
  simp only [calculate_tss_swim, hcss, hfind, hdist, Option.getD, htime]
  norm_num +decide [htime, hdist, intTrunc, round2, round4, round_eq]

/-- C4 counterexample: for the heart-rate series `[125,130,135,140]` at
1-second spacing with zones `z1=[120,139]`, `z2=[140,159]`, the engine
credits z1 with 0.03 minutes (2 seconds: the first sample's delta is 0
because it has no previous trackpoint), not the claimed 3 seconds
(0.05 minutes). -/
theorem zone_binning_counterexample :
    (get_fallback_zone_analysis
        [{ ts := 0, heart_rate := some 125 },
         { ts := 1, heart_rate := some 130 },
         { ts := 2, heart_rate := some 135 },
         { ts := 3, heart_rate := some 140 }]
        [("z1", 120, 139), ("z2", 140, 159)]
        none).heart_rate_zones.lookup "z1_minutes" = some (3/100) ∧
    some ((3 : ℚ)/100) ≠ some ((5 : ℚ)/100) := by
  constructor
  · norm_num +decide [get_fallback_zone_analysis, sortByTs,
      List.insertionSort, List.orderedInsert, diffs, diffsFrom, zoneLoop,
      List.zip, List.zipWith, List.foldl, get_hr_zone, get_power_zone,
      initZones, all_zones, List.map, bumpZone, List.find?, List.any,
      List.lookup, round2, round_eq,
      show ("z1" ++ "_minutes" : String) = "z1_minutes" from by decide,
      show ("z2" ++ "_minutes" : String) = "z2_minutes" from by decide,
      show ("zx" ++ "_minutes" : String) = "zx_minutes" from by decide,
      show ("z3" ++ "_minutes" : String) = "z3_minutes" from by decide,
      show ("zy" ++ "_minutes" : String) = "zy_minutes" from by decide,
      show ("z4" ++ "_minutes" : String) = "z4_minutes" from by decide,
      show ("z5" ++ "_minutes" : String) = "z5_minutes" from by decide]
  · norm_num

/-- C4 (amended): for the heart-rate series `[125,130,135,140]` at
1-second spacing with zones `z1=[120,139]`, `z2=[140,159]`: the first
sample has no previous trackpoint so its delta is 0; z1 is credited the
2 seconds of the samples at 130 and 135 (0.03 minutes after 2-decimal
rounding), z2 is credited the 1 second of the sample at 140
(0.02 minutes after 2-decimal rounding), and the total duration is
3 seconds (0.05 minutes). -/
theorem zone_binning_scenario :
    (get_fallback_zone_analysis
        [{ ts := 0, heart_rate := some 125 },
         { ts := 1, heart_rate := some 130 },
         { ts := 2, heart_rate := some 135 },
         { ts := 3, heart_rate := some 140 }]
        [("z1", 120, 139), ("z2", 140, 159)]
        none).heart_rate_zones.lookup "z1_minutes" = some (3/100) ∧
    (get_fallback_zone_analysis
        [{ ts := 0, heart_rate := some 125 },
         { ts := 1, heart_rate := some 130 },
         { ts := 2, heart_rate := some 135 },
         { ts := 3, heart_rate := some 140 }]
        [("z1", 120, 139), ("z2", 140, 159)]
        none).heart_rate_zones.lookup "z2_minutes" = some (2/100) ∧
    (get_fallback_zone_analysis
        [{ ts := 0, heart_rate := some 125 },
         { ts := 1, heart_rate := some 130 },
         { ts := 2, heart_rate := some 135 },
         { ts := 3, heart_rate := some 140 }]
        [("z1", 120, 139), ("z2", 140, 159)]
        none).total_duration_minutes = 5/100 := by
  refine ⟨?_, ?_, ?_⟩ <;>
    norm_num +decide [get_fallback_zone_analysis, sortByTs,
      List.insertionSort, List.orderedInsert, diffs, diffsFrom, zoneLoop,
      List.zip, List.zipWith, List.foldl, get_hr_zone, get_power_zone,
      initZones, all_zones, List.map, bumpZone, List.find?, List.any,
      List.lookup, round2, round_eq,
      show ("z1" ++ "_minutes" : String) = "z1_minutes" from by decide,
      show ("z2" ++ "_minutes" : String) = "z2_minutes" from by decide,
      show ("zx" ++ "_minutes" : String) = "zx_minutes" from by decide,
      show ("z3" ++ "_minutes" : String) = "z3_minutes" from by decide,
      show ("zy" ++ "_minutes" : String) = "zy_minutes" from by decide,
      show ("z4" ++ "_minutes" : String) = "z4_minutes" from by decide,
      show ("z5" ++ "_minutes" : String) = "z5_minutes" from by decide,
      show (("z2_minutes" : String) == "z1_minutes") = false from by decide]

/-- C7: with one `Time` step of 60000 ms (custom target 100–150 W)
followed by one `Open` step (custom target 150–200 W), the trackpoint at
elapsed 30 s is annotated with target power 100–150 (step 0) and the
trackpoint at elapsed 90 s with target power 150–200 (step 1); and in
general, for these steps, an elapsed time in `[0, 60)` belongs to step 0
(its cumulative window) while the `Open` step captures every elapsed time
at or after its start at 60 s. -/
theorem target_mapper_scenario :
    map_targets_to_timestamps
        [{ ts := some 0 }, { ts := some 30 }, { ts := some 90 }]
        [{ duration_type := some "time", duration_value := some 60000,
           target_type := some (.num 0),
           custom_target_value_low := some 100,
           custom_target_value_high := some 150 },
         { duration_type := some "open", target_type := some (.num 0),
           custom_target_value_low := some 150,
           custom_target_value_high := some 200 }] "bike" =
      [{ ts := some 0, target_power_low := some 100,
         target_power_high := some 150,
         target_power_type := some (.num 0),
         workout_step_index := some 0 },
       { ts := some 30, target_power_low := some 100,
         target_power_high := some 150,
         target_power_type := some (.num 0),
         workout_step_index := some 0 },
       { ts := some 90, target_power_low := some 150,
         target_power_high := some 200,
         target_power_type := some (.num 0),
         workout_step_index := some 1 }] ∧
    ∀ e : ℚ, findStep
        [{ duration_type := some "time", duration_value := some 60000,
           target_type := some (.num 0),
           custom_target_value_low := some 100,
           custom_target_value_high := some 150 },
         { duration_type := some "open", target_type := some (.num 0),
           custom_target_value_low := some 150,
           custom_target_value_high := some 200 }] e =
      if 0 ≤ e ∧ e < 60 then some 0
      else if 60 ≤ e then some 1
      else none := by
  constructor
  · norm_num +decide [map_targets_to_timestamps, findStep, findStepGo,
      annotateTp, List.map, List.getD, List.get?]
  · intro e
    simp +decide only [findStep, findStepGo]
    norm_num

theorem sum_map_const {l : List Tp} {f : Tp → ℚ} {c : ℚ}
    (h : ∀ x ∈ l, f x = c) : (l.map f).sum = c * l.length := by
  induction l with
  | nil => simp
  | cons x xs ih =>
    simp only [List.map_cons, List.sum_cons, List.length_cons]
    rw [h x (List.mem_cons_self x xs),
      ih (fun y hy => h y (List.mem_cons_of_mem x hy))]
    push_cast
    ring

theorem movingTime_nil : movingTime [] = 0 := rfl

theorem bikeSorted_mem {tps : List Tp} {tp : Tp}
    (h : tp ∈ bikeSorted tps) : tp ∈ tps :=
  List.mem_of_mem_filter ((List.mem_insertionSort _).1 h)

/-- C1: for a bike workout whose trackpoints all carry power 250 W, with
FTP 250 and one hour of moving time, the intensity factor is 1 and the
output is TSS = 100.00, duration_sec = 3600, duration_hr = 1.0000. -/
theorem bike_tss_constant_power (tps : List Tp)
    (h250 : ∀ tp ∈ tps, tp.power = some 250)
    (hmt : bikeMovingTime tps = 3600) :
    bikeAvgPower tps / 250 = 1 ∧
    calculate_tss_bike tps 250 = some (100, 3600, 1) := by
  have hne : ¬ bikeFiltered tps = [] := by
    intro h
    rw [bikeMovingTime, bikeSorted, h] at hmt
    simp only [sortByTs, List.insertionSort, List.map_nil,
      movingTime_nil] at hmt
    norm_num at hmt
  have hlenpos : 0 < (bikeSorted tps).length := by
    rw [bikeSorted, sortByTs, List.length_insertionSort]
    exact List.length_pos.2 hne
  have hlenne : ((bikeSorted tps).length : ℚ) ≠ 0 := by
    exact_mod_cast hlenpos.ne'
  have havg : bikeAvgPower tps = 250 := by
    unfold bikeAvgPower
    have hmap : ∀ tp ∈ bikeSorted tps,
        (fun tp : Tp => tp.power.getD 0) tp = 250 := fun tp htp => by
      simp [h250 tp (bikeSorted_mem htp)]
    rw [sum_map_const hmap, mul_div_assoc, div_self hlenne, mul_one]
  have hIF : bikeAvgPower tps / 250 = 1 := by rw [havg]; norm_num
  refine ⟨hIF, ?_⟩
  unfold calculate_tss_bike
  rw [if_neg hne, hmt, hIF]
  norm_num [round2, round4, intTrunc, round_eq]

theorem tpAP_power : ∀ (n : ℕ) (a c : ℚ), ∀ tp ∈ tpAP n a c,
    tp.power = some 250 := by
  intro n
  induction n with
  | zero => intro a c tp h; simp [tpAP] at h
  | succ m ih =>
    intro a c tp h
    rcases List.mem_cons.1 h with h | h
    · rw [h]
    · exact ih (a + c) c tp h

theorem tpAP_filtered (n : ℕ) (a c : ℚ) :
    bikeFiltered (tpAP n a c) = tpAP n a c := by
  rw [bikeFiltered, List.filter_eq_self]
  intro tp htp
  rw [tpAP_power n a c tp htp]
  rfl

theorem tpAP_ts_le (n : ℕ) (a c : ℚ) (hc : 0 ≤ c) :
    ∀ tp ∈ tpAP n a c, a ≤ tp.ts := by
  induction n generalizing a with
  | zero => intro tp h; simp [tpAP] at h
  | succ m ih =>
    intro tp h
    rcases List.mem_cons.1 h with h | h
    · rw [h]
    · exact le_trans (by linarith) (ih (a + c) tp h)

theorem tpAP_sorted (n : ℕ) (a c : ℚ) (hc : 0 ≤ c) :
    List.Sorted (fun x y : Tp => x.ts ≤ y.ts) (tpAP n a c) := by
  induction n generalizing a with
  | zero => exact List.sorted_nil
  | succ m ih =>
    rw [tpAP, List.sorted_cons]
    exact ⟨fun tp htp =>
      le_trans (by linarith) (tpAP_ts_le m (a + c) c hc tp htp), ih (a + c)⟩

theorem tpAP_bikeSorted (n : ℕ) (a c : ℚ) (hc : 0 ≤ c) :
    bikeSorted (tpAP n a c) = tpAP n a c := by
  rw [bikeSorted, tpAP_filtered, sortByTs]
  exact (tpAP_sorted n a c hc).insertionSort_eq

theorem tpAP_diffsFrom : ∀ (n : ℕ) (a c : ℚ),
    diffsFrom a ((tpAP n (a + c) c).map (·.ts)) = List.replicate n c := by
  intro n
  induction n with
  | zero => intro a c; rfl
  | succ m ih =>
    intro a c
    show (a + c - a) :: diffsFrom (a + c) ((tpAP m (a + c + c) c).map (·.ts))
      = c :: List.replicate m c
    rw [ih (a + c) c]
    norm_num

theorem tpAP_movingTime (n : ℕ) (a c : ℚ) (hc : 0 ≤ c) (hc5 : c < 5) :
    bikeMovingTime (tpAP (n + 1) a c) = n * c := by
  rw [bikeMovingTime, tpAP_bikeSorted (n + 1) a c hc]
  show movingTime (a :: (tpAP n (a + c) c).map (·.ts)) = n * c
  rw [movingTime, diffs, tpAP_diffsFrom n a c]
  have hfilter : (List.replicate n c).filter
      (fun d => decide (d < PAUSE_THRESHOLD)) = List.replicate n c := by
    rw [List.filter_eq_self]
    intro d hd
    rw [List.eq_of_mem_replicate hd]
    simpa [PAUSE_THRESHOLD] using hc5
  simp only [List.filter_cons, hfilter]
  have h05 : ((0 : ℚ) < PAUSE_THRESHOLD) := by norm_num [PAUSE_THRESHOLD]
  simp only [decide_eq_true_eq, if_pos h05, List.sum_cons,
    List.sum_replicate, nsmul_eq_mul, zero_add]

/-- Witness for `bike_tss_constant_power`: 801 trackpoints spaced 4.5 s
apart (800 deltas · 4.5 s = 3600 s of moving time), all at 250 W. -/
theorem bike_tss_constant_power_witness :
    bikeAvgPower (tpAP 801 0 (9/2)) / 250 = 1 ∧
    calculate_tss_bike (tpAP 801 0 (9/2)) 250 = some (100, 3600, 1) :=
  bike_tss_constant_power (tpAP 801 0 (9/2))
    (tpAP_power 801 0 (9/2))
    (by
      rw [show (801 : ℕ) = 800 + 1 from rfl,
        tpAP_movingTime 800 0 (9/2) (by norm_num) (by norm_num)]
      norm_num)

theorem bikeFiltered_idem (tps : List Tp) :
    bikeFiltered (bikeFiltered tps) = bikeFiltered tps := by
  simp [bikeFiltered, List.filter_filter]

/-- C10: the bike and run TSS calculators compute moving time over only
the power-bearing subsequence: dropping the trackpoints without a power
value before the calculation does not change the result, so every
time-delta (and the pause-threshold filter) spans the gap between
consecutive power-bearing samples. -/
theorem tss_moving_time_power_only (tps : List Tp) (ftp cp : ℚ) :
    calculate_tss_bike (bikeFiltered tps) ftp = calculate_tss_bike tps ftp ∧
    calculate_tss_run (runFiltered tps) cp = calculate_tss_run tps cp := by
  constructor
  · unfold calculate_tss_bike bikeMovingTime bikeAvgPower bikeSorted
    rw [bikeFiltered_idem]
  · rcases hcol : runPowerCol tps with _ | col
    · have hP : ¬ tps.any (fun tp => tp.Power.isSome) = true := by
        by_contra h
        simp only [runPowerCol, if_pos h] at hcol
        exact Option.noConfusion hcol
      have hp : ¬ tps.any (fun tp => tp.power.isSome) = true := by
        by_contra h
        unfold runPowerCol at hcol
        rw [if_neg hP, if_pos h] at hcol
        exact Option.noConfusion hcol
      have hrf : runFiltered tps = [] := by
        unfold runFiltered
        rw [hcol]
      rw [hrf]
      unfold calculate_tss_run
      rw [hcol]
      rfl
    · have hrf : runFiltered tps =
          tps.filter (fun tp => (col tp).isSome) := by
        unfold runFiltered
        rw [hcol]
      unfold runPowerCol at hcol
      by_cases hP : tps.any (fun tp => tp.Power.isSome) = true
      · rw [if_pos hP] at hcol
        have hcoleq : col = fun tp => tp.Power :=
          (Option.some.inj hcol).symm
        subst hcoleq
        have hP' : (tps.filter (fun tp => tp.Power.isSome)).any
            (fun tp => tp.Power.isSome) = true := by
          rcases List.any_eq_true.1 hP with ⟨tp, htp, hsome⟩
          exact List.any_eq_true.2
            ⟨tp, List.mem_filter.2 ⟨htp, hsome⟩, hsome⟩
        rw [hrf]
        unfold calculate_tss_run
        rw [show runPowerCol (tps.filter (fun tp => tp.Power.isSome)) =
            some (fun tp => tp.Power) from by
          unfold runPowerCol
          rw [if_pos hP'],
          show runPowerCol tps = some (fun tp => tp.Power) from by
          unfold runPowerCol
          rw [if_pos hP]]
        simp [runSorted, List.filter_filter]
      · rw [if_neg hP] at hcol
        by_cases hp : tps.any (fun tp => tp.power.isSome) = true
        · rw [if_pos hp] at hcol
          have hcoleq : col = fun tp => tp.power :=
            (Option.some.inj hcol).symm
          subst hcoleq
          have hp' : (tps.filter (fun tp => tp.power.isSome)).any
              (fun tp => tp.power.isSome) = true := by
            rcases List.any_eq_true.1 hp with ⟨tp, htp, hsome⟩
            exact List.any_eq_true.2
              ⟨tp, List.mem_filter.2 ⟨htp, hsome⟩, hsome⟩
          have hP' : ¬ (tps.filter (fun tp => tp.power.isSome)).any
              (fun tp => tp.Power.isSome) = true := by
            intro h
            rcases List.any_eq_true.1 h with ⟨tp, htp, hsome⟩
            exact hP (List.any_eq_true.2
              ⟨tp, (List.mem_filter.1 htp).1, hsome⟩)
          rw [hrf]
          unfold calculate_tss_run
          rw [show runPowerCol (tps.filter (fun tp => tp.power.isSome)) =
              some (fun tp => tp.power) from by
            unfold runPowerCol
            rw [if_neg hP', if_pos hp'],
            show runPowerCol tps = some (fun tp => tp.power) from by
            unfold runPowerCol
            rw [if_neg hP, if_pos hp]]
          simp [runSorted, List.filter_filter]
        · rw [if_neg hp] at hcol
          exact Option.noConfusion hcol

theorem diffsFrom_nonneg (prev : ℚ) (l : List ℚ)
    (h : List.Sorted (· ≤ ·) (prev :: l)) : ∀ d ∈ diffsFrom prev l, 0 ≤ d := by
  induction l generalizing prev with
  | nil => intro d hd; simp [diffsFrom] at hd
  | cons x xs ih =>
    intro d hd
    rcases List.mem_cons.1 hd with hd | hd
    · rw [hd]
      have := List.rel_of_sorted_cons h x (List.mem_cons_self x xs)
      linarith
    · exact ih x (List.sorted_cons.1 h).2 d hd

theorem movingTime_nonneg (times : List ℚ)
    (h : List.Sorted (· ≤ ·) times) : 0 ≤ movingTime times := by
  apply List.sum_nonneg
  intro d hd
  have hd' := List.mem_of_mem_filter hd
  rcases times with _ | ⟨t, rest⟩
  · simp [diffs] at hd'
  · rcases List.mem_cons.1 hd' with hd' | hd'
    · rw [hd']
    · exact diffsFrom_nonneg t rest h d hd'

theorem sorted_map_ts (l : List Tp) :
    List.Sorted (· ≤ ·) ((sortByTs l).map (·.ts)) :=
  List.Pairwise.map (fun tp : Tp => tp.ts) (fun _ _ h => h)
    (List.sorted_insertionSort _ l)

theorem round2_nonneg {x : ℚ} (h : 0 ≤ x) : 0 ≤ round2 x := by
  unfold round2
  apply div_nonneg _ (by norm_num)
  have : (0 : ℤ) ≤ round (x * 100) := by
    rw [round_eq]
    apply Int.floor_nonneg.2
    linarith
  exact_mod_cast this

theorem calculate_tss_bike_eq_none_iff (tps : List Tp) (ftp : ℚ) :
    calculate_tss_bike tps ftp = none ↔ ∀ tp ∈ tps, tp.power = none := by
  unfold calculate_tss_bike
  constructor
  · intro h tp htp
    by_cases hb : bikeFiltered tps = []
    · have := List.filter_eq_nil_iff.1 hb tp htp
      simpa using this
    · rw [if_neg hb] at h
      exact absurd h (by simp)
  · intro h
    rw [if_pos]
    exact List.filter_eq_nil_iff.2 fun tp htp => by
      rw [h tp htp]; simp

theorem calculate_tss_bike_nonneg (tps : List Tp) (ftp t : ℚ) (d : ℤ)
    (hr : ℚ) (heq : calculate_tss_bike tps ftp = some (t, d, hr)) :
    0 ≤ t := by
  unfold calculate_tss_bike at heq
  by_cases hb : bikeFiltered tps = []
  · rw [if_pos hb] at heq
    exact absurd heq (by simp)
  · rw [if_neg hb] at heq
    have hin := Option.some.inj heq
    have ht : round2 (bikeMovingTime tps / 3600 *
        (bikeAvgPower tps / ftp) ^ 2 * 100) = t := congrArg Prod.fst hin
    rw [← ht]
    apply round2_nonneg
    have hmv : 0 ≤ bikeMovingTime tps :=
      movingTime_nonneg _ (sorted_map_ts (bikeFiltered tps))
    have h1 : 0 ≤ bikeMovingTime tps / 3600 := by positivity
    have h2 : 0 ≤ (bikeAvgPower tps / ftp) ^ 2 := sq_nonneg _
    positivity

theorem runPowerCol_some {tps : List Tp} {col : Tp → Option ℚ}
    (hcol : runPowerCol tps = some col) :
    (∃ tp ∈ tps, (col tp).isSome = true) ∧
    ((col = fun tp => tp.power) ∨ (col = fun tp => tp.Power)) := by
  unfold runPowerCol at hcol
  by_cases hP : tps.any (fun tp => tp.Power.isSome) = true
  · rw [if_pos hP] at hcol
    have hc : col = fun tp => tp.Power := (Option.some.inj hcol).symm
    rcases List.any_eq_true.1 hP with ⟨tp, htp, hs⟩
    exact ⟨⟨tp, htp, by rw [hc]; exact hs⟩, Or.inr hc⟩
  · rw [if_neg hP] at hcol
    by_cases hp : tps.any (fun tp => tp.power.isSome) = true
    · rw [if_pos hp] at hcol
      have hc : col = fun tp => tp.power := (Option.some.inj hcol).symm
      rcases List.any_eq_true.1 hp with ⟨tp, htp, hs⟩
      exact ⟨⟨tp, htp, by rw [hc]; exact hs⟩, Or.inl hc⟩
    · rw [if_neg hp] at hcol
      exact absurd hcol (by simp)

theorem calculate_tss_run_eq_none_iff (tps : List Tp) (cp : ℚ) :
    calculate_tss_run tps cp = none ↔
      ∀ tp ∈ tps, tp.power = none ∧ tp.Power = none := by
  rcases hcol : runPowerCol tps with _ | col
  · have hcol' := hcol
    unfold runPowerCol at hcol'
    by_cases hP : tps.any (fun tp => tp.Power.isSome) = true
    · rw [if_pos hP] at hcol'
      exact absurd hcol' (by simp)
    · rw [if_neg hP] at hcol'
      by_cases hp : tps.any (fun tp => tp.power.isSome) = true
      · rw [if_pos hp] at hcol'
        exact absurd hcol' (by simp)
      · constructor
        · intro _ tp htp
          constructor
          · rcases hv : tp.power with _ | v
            · rfl
            · exact absurd (List.any_eq_true.2 ⟨tp, htp, by
                rw [hv]; rfl⟩) hp
          · rcases hv : tp.Power with _ | v
            · rfl
            · exact absurd (List.any_eq_true.2 ⟨tp, htp, by
                rw [hv]; rfl⟩) hP
        · intro _
          unfold calculate_tss_run
          rw [hcol]
  · rcases runPowerCol_some hcol with ⟨⟨tp, htp, hsome⟩, hid⟩
    have hrows : ¬ runSorted col tps = [] := by
      intro hnil
      have hlen : (runSorted col tps).length =
          (tps.filter (fun tp => (col tp).isSome)).length := by
        unfold runSorted sortByTs
        exact List.length_insertionSort _ _
      rw [hnil] at hlen
      simp only [List.length_nil] at hlen
      have hmem : tp ∈ tps.filter (fun tp => (col tp).isSome) :=
        List.mem_filter.2 ⟨htp, hsome⟩
      have hpos := List.length_pos.2 (List.ne_nil_of_mem hmem)
      omega
    constructor
    · intro h
      unfold calculate_tss_run at h
      simp only [hcol, if_neg hrows] at h
      exact absurd h (by simp)
    · intro h
      exfalso
      rcases hid with hc | hc <;> subst hc
      · have h1 := (h tp htp).1
        simp [h1] at hsome
      · have h1 := (h tp htp).2
        simp [h1] at hsome

theorem calculate_tss_run_nonneg (tps : List Tp) (cp t : ℚ) (d : ℤ)
    (hr : ℚ) (heq : calculate_tss_run tps cp = some (t, d, hr)) :
    0 ≤ t := by
  unfold calculate_tss_run at heq
  rcases hcol : runPowerCol tps with _ | col
  · rw [hcol] at heq
    exact absurd heq (by simp)
  · by_cases hrows : runSorted col tps = []
    · simp only [hcol, if_pos hrows] at heq
      exact absurd heq (by simp)
    · simp only [hcol, if_neg hrows] at heq
      have hin := Option.some.inj heq
      have ht : round2 (movingTime ((runSorted col tps).map (·.ts)) / 3600 *
          ((((runSorted col tps).map (fun tp => (col tp).getD 0)).sum /
            ((runSorted col tps).length : ℚ)) / cp) ^ 2 * 100) = t :=
        congrArg Prod.fst hin
      rw [← ht]
      apply round2_nonneg
      have hmv : 0 ≤ movingTime ((runSorted col tps).map (·.ts)) :=
        movingTime_nonneg _
          (sorted_map_ts (tps.filter (fun tp => (col tp).isSome)))
      positivity

/-- C5 (for the trackpoint-based calculators, bike and run, dispatched
through `calculate_workout_metrics`): the result is `none` — a returned
value, not a raised error — exactly when the relevant baseline (FTP /
critical power) is unset or zero, or no trackpoint carries the relevant
power metric; in every other case the returned TSS is ≥ 0. -/
theorem tss_not_computable_iff (tps : List Tp) (profile : ProfileZones) :
    (calculate_workout_metrics "bike" tps none profile = none ↔
      profile.ftp = none ∨ profile.ftp = some 0 ∨
        ∀ tp ∈ tps, tp.power = none) ∧
    (∀ t d hr, calculate_workout_metrics "bike" tps none profile =
        some (t, d, hr) → 0 ≤ t) ∧
    (calculate_workout_metrics "run" tps none profile = none ↔
      profile.critical_power = none ∨ profile.critical_power = some 0 ∨
        ∀ tp ∈ tps, tp.power = none ∧ tp.Power = none) ∧
    (∀ t d hr, calculate_workout_metrics "run" tps none profile =
        some (t, d, hr) → 0 ≤ t) := by
  refine ⟨?_, ?_, ?_, ?_⟩
  · unfold calculate_workout_metrics
    rw [if_pos rfl]
    rcases hf : profile.ftp with _ | f
    · simp
    · simp only [hf, Option.some.injEq]
      by_cases h0 : f = 0
      · subst h0
        simp
      · rw [if_neg h0]
        rw [calculate_tss_bike_eq_none_iff]
        constructor
        · intro h; exact Or.inr (Or.inr h)
        · intro h
          rcases h with h | h | h
          · exact absurd h (by simp)
          · exact absurd h h0
          · exact h
  · intro t d hr h
    unfold calculate_workout_metrics at h
    rw [if_pos rfl] at h
    rcases hf : profile.ftp with _ | f
    · rw [hf] at h; exact absurd h (by simp)
    · by_cases h0 : f = 0
      · simp only [hf, if_pos h0] at h
        exact absurd h (by simp)
      · simp only [hf, if_neg h0] at h
        exact calculate_tss_bike_nonneg tps f t d hr h
  · unfold calculate_workout_metrics
    rw [if_neg (by decide), if_pos rfl]
    rcases hf : profile.critical_power with _ | f
    · simp
    · simp only [hf, Option.some.injEq]
      by_cases h0 : f = 0
      · subst h0
        simp
      · rw [if_neg h0]
        rw [calculate_tss_run_eq_none_iff]
        constructor
        · intro h; exact Or.inr (Or.inr h)
        · intro h
          rcases h with h | h | h
          · exact absurd h (by simp)
          · exact absurd h h0
          · exact h
  · intro t d hr h
    unfold calculate_workout_metrics at h
    rw [if_neg (by decide), if_pos rfl] at h
    rcases hf : profile.critical_power with _ | f
    · rw [hf] at h; exact absurd h (by simp)
    · by_cases h0 : f = 0
      · simp only [hf, if_pos h0] at h
        exact absurd h (by simp)
      · simp only [hf, if_neg h0] at h
        exact calculate_tss_run_nonneg tps f t d hr h

/-- Witness for the hypotheses of `tss_not_computable_iff`: one
power-bearing trackpoint with FTP 200 gives a non-`none` result, and that
result's TSS is ≥ 0 (it is `some (0, 0, 0)` since a single sample has no
moving time); with no FTP, the bike branch is `none`. -/
theorem tss_not_computable_iff_witness :
    (calculate_workout_metrics "bike" [{ ts := 0, power := some 100 }] none
        { ftp := none } = none) ∧
    (0 : ℚ) ≤ 0 :=
  ⟨(tss_not_computable_iff [{ ts := 0, power := some 100 }]
      { ftp := none }).1.2 (Or.inl rfl),
   (tss_not_computable_iff [{ ts := 0, power := some 100 }]
      { ftp := some 200 }).2.1 0 0 0
     (by
       have h : calculate_tss_bike [{ ts := 0, power := some 100 }] 200 =
           some (0, 0, 0) := by
         norm_num +decide [calculate_tss_bike, bikeFiltered, bikeSorted,
           bikeMovingTime, bikeAvgPower, sortByTs, List.insertionSort,
           List.orderedInsert, movingTime, diffs, diffsFrom, round2,
           round4, intTrunc, round_eq]
       simpa [calculate_workout_metrics] using h)⟩

end Aironman
